import Mathlib

/-!
Shallow embedding of `Python-Clothes-Assistent/main.py` (a command-line
outfit recommender) and verification of its specification.

Modelling conventions:
* Python strings are Lean `String`s; the integer temperature is `Int`.
* `random.choice(valid_items)` is modelled by passing an arbitrary natural
  number `k` (the random draw) and selecting index `k % valid_items.length`;
  every index of the list is reachable for some `k`, and no other value is.
* The mutable `ItemManager` state (the in-memory `items` list and the
  persisted CSV file) is threaded explicitly as a `ManagerState`.
* The CSV file behind `load_items`/`add_item` is modelled as a `List Row`
  of its data records (the header line, which fixes the column order
  `category,name,color,temperature,style,weather`, is implicit in the
  `Row` structure).
* `add_item` additionally returns the list of state-changing events it
  performs, in source order, so that ordering claims are expressible.
* One iteration of the interactive `while True` loop is `loop_step`; an
  uncaught Python exception (e.g. `int()` on a non-numeric string) is the
  `StepResult.crash` outcome.
-/

namespace ClothesAssistant

/-- The `Item` class of `main.py`: constructor
`Item(category, name, color, temperature, style, weather)`. -/
structure Item where
  category : String
  name : String
  color : String
  temperature : String
  style : String
  weather : String
deriving DecidableEq

/-- `Item.__str__`: the display form `f"{self.name}/{self.color}"`. -/
def itemStr (i : Item) : String := i.name ++ "/" ++ i.color

/-- Class constant `ItemManager.CATEGORY_JACKET`. -/
def CATEGORY_JACKET : String := "jacket"

/-- Class constant `ItemManager.CATEGORY_SHIRT`. -/
def CATEGORY_SHIRT : String := "shirt"

/-- Class constant `ItemManager.CATEGORY_PANTS`. -/
def CATEGORY_PANTS : String := "pants"

/-- Class constant `ItemManager.CATEGORY_SHOES`. -/
def CATEGORY_SHOES : String := "shoes"

/-- Class constant `ItemManager.TEMPERATURE_HOT`. -/
def TEMPERATURE_HOT : String := "hot"

/-- Class constant `ItemManager.TEMPERATURE_MEDIUM`. -/
def TEMPERATURE_MEDIUM : String := "medium"

/-- Class constant `ItemManager.TEMPERATURE_COLD`. -/
def TEMPERATURE_COLD : String := "cold"

/-- `ItemManager.temperature_check(temperature)`: `>= 21` yields hot,
`>= 15` yields medium, otherwise cold. -/
def temperature_check (temperature : Int) : String :=
  if temperature ≥ 21 then TEMPERATURE_HOT
  else if temperature ≥ 15 then TEMPERATURE_MEDIUM
  else TEMPERATURE_COLD

/-- The `valid_items` list built by the loop inside
`ItemManager.choose_item`: all items whose `temperature`, `style` and
`category` fields equal the query (with `temperature` compared against
`temperature_check(temperature)`). -/
def valid_items (items : List Item) (category : String) (temperature : Int)
    (style : String) : List Item :=
  items.filter fun item =>
    item.temperature == temperature_check temperature
      && item.style == style
      && item.category == category

/-- `ItemManager.choose_item(category, temperature, style)`:
`random.choice(valid_items)` when `valid_items` is non-empty, else
`None`. The random draw is the extra argument `k`; on the empty list
`k % 0 = k` and the lookup yields `none`, exactly the `else` branch. -/
def choose_item (items : List Item) (category : String) (temperature : Int)
    (style : String) (k : Nat) : Option Item :=
  (valid_items items category temperature style)[k %
    (valid_items items category temperature style).length]?

/-- One data record of the persisted CSV file, with the file's column
order `category,name,color,temperature,style,weather`. -/
structure Row where
  category : String
  name : String
  color : String
  temperature : String
  style : String
  weather : String
deriving DecidableEq

/-- Building an `Item` from a CSV record as `ItemManager.load_items`
does: `Item(row['category'], row['name'], row['color'],
row['temperature'], row['style'], row['weather'])`. -/
def rowToItem (r : Row) : Item :=
  Item.mk r.category r.name r.color r.temperature r.style r.weather

/-- `ItemManager.load_items` as run by a fresh process: one `Item` per
persisted record, in file order. -/
def load_items (file : List Row) : List Item := file.map rowToItem

/-- The mutable state touched by the program: the persisted CSV file and
the in-memory `ItemManager.items` list. -/
structure ManagerState where
  file : List Row
  items : List Item
deriving DecidableEq

/-- A state-changing event performed by `ItemManager.add_item`:
appending to the in-memory list, or writing a record to the file. -/
inductive Event where
  | memAppend
  | fileWrite
deriving DecidableEq

/-- `ItemManager.add_item` with the prompted strings as arguments, in
prompt order (`category, name, color, temperature, weather, style`).
Source order: construct the `Item`, `self.items.append(item)`, then open
the file in append mode and `writer.writerow([category, name, color,
temperature, style, weather])`. The returned event list records that
order. -/
def add_item (s : ManagerState) (category name color temperature weather style : String) :
    ManagerState × List Event :=
  (ManagerState.mk
    (s.file ++ [Row.mk category name color temperature style weather])
    (s.items ++ [Item.mk category name color temperature style weather]),
   [Event.memAppend, Event.fileWrite])

/-- Models Python `str.lower()` for the ASCII strings this program
compares: each character is lowercased. -/
def pyLower (s : String) : String := String.mk (s.data.map Char.toLower)

/-- Decimal value of a digit list, most significant first. -/
def digitsToNat (l : List Char) : Nat :=
  l.foldl (fun acc c => acc * 10 + (c.toNat - 48)) 0

/-- Models Python `int(s)` on a string: surrounding whitespace is
ignored, then an optional sign followed by one or more decimal digits
parses to `some` integer; anything else is `none`, the case where
`int` raises `ValueError`. (Underscore digit grouping and non-ASCII
digits, which CPython also accepts, are not modelled; no claim depends
on them.) -/
def pyInt (s : String) : Option Int :=
  match ((s.data.dropWhile Char.isWhitespace).reverse.dropWhile Char.isWhitespace).reverse with
  | '-' :: rest =>
    if !rest.isEmpty && rest.all Char.isDigit then some (-(digitsToNat rest : Int)) else none
  | '+' :: rest =>
    if !rest.isEmpty && rest.all Char.isDigit then some ((digitsToNat rest : Int)) else none
  | rest =>
    if !rest.isEmpty && rest.all Char.isDigit then some ((digitsToNat rest : Int)) else none

/-- The printed jacket line of the find report:
`f"Jacket: {jacket}" if jacket else "Jacket: Sorry, no suitable jacket"`. -/
def jacketLine : Option Item → String
  | some i => "Jacket: " ++ itemStr i
  | none => "Jacket: Sorry, no suitable jacket"

/-- The printed shirt line of the find report. -/
def shirtLine : Option Item → String
  | some i => "Shirt: " ++ itemStr i
  | none => "Shirt: Sorry, no suitable shirt"

/-- The printed pants line of the find report. -/
def pantsLine : Option Item → String
  | some i => "Pants: " ++ itemStr i
  | none => "Pants: Sorry, no suitable pants"

/-- The printed shoes line of the find report. -/
def shoesLine : Option Item → String
  | some i => "Shoes: " ++ itemStr i
  | none => "Shoes: Sorry, no suitable shoes"

/-- The `find` branch of the interactive loop, after the three prompts
have been read and converted: the four unconditional `choose_item`
calls (first component: the categories requested, in call order), and
the printed report (second component). The jacket line is printed only
when `weather == "rainy"` or the temperature band is cold; the four
`choose_item` calls happen before and independently of that test. -/
def find_action (items : List Item) (today_temperature : Int)
    (today_style weather : String) (kJacket kShirt kPants kShoes : Nat) :
    List String × List String :=
  let jacket := choose_item items CATEGORY_JACKET today_temperature today_style kJacket
  let shirt := choose_item items CATEGORY_SHIRT today_temperature today_style kShirt
  let pants := choose_item items CATEGORY_PANTS today_temperature today_style kPants
  let shoes := choose_item items CATEGORY_SHOES today_temperature today_style kShoes
  ([CATEGORY_JACKET, CATEGORY_SHIRT, CATEGORY_PANTS, CATEGORY_SHOES],
   if weather == "rainy" || temperature_check today_temperature == TEMPERATURE_COLD then
     ["Today\x27s Outfit:", jacketLine jacket, shirtLine shirt,
      pantsLine pants, shoesLine shoes]
   else
     ["Today\x27s Outfit:", shirtLine shirt, pantsLine pants, shoesLine shoes])

/-- The answers a user gives to the prompts of one loop iteration (find
prompts, add prompts) together with the random draws of the four
`choose_item` calls. -/
structure Inputs where
  temperatureInput : String
  styleInput : String
  weatherInput : String
  addCategory : String
  addName : String
  addColor : String
  addTemperature : String
  addWeather : String
  addStyle : String
  kJacket : Nat
  kShirt : Nat
  kPants : Nat
  kShoes : Nat

/-- Outcome of one iteration of the `while True` loop: the loop
continues with a new state after printing some lines, the loop breaks
(`quit`), or an uncaught exception terminates the program. -/
inductive StepResult where
  | cont (state : ManagerState) (output : List String)
  | quit (state : ManagerState)
  | crash (state : ManagerState)
deriving DecidableEq

/-- One iteration of the interactive loop of `main.py`: lowercase the
action; on `find` convert the temperature with `int(...)` (no
`try`/`except` around it, so a `ValueError` is uncaught and the program
crashes), lowercase style and weather, and run the find branch; on
`add` run `add_item`; on `quit` break; otherwise print the invalid
action message and continue. -/
def loop_step (s : ManagerState) (actionInput : String) (inp : Inputs) : StepResult :=
  let action := pyLower actionInput
  if action == "find" then
    match pyInt inp.temperatureInput with
    | none => StepResult.crash s
    | some today_temperature =>
      let today_style := pyLower inp.styleInput
      let weather := pyLower inp.weatherInput
      StepResult.cont s
        (find_action s.items today_temperature today_style weather
          inp.kJacket inp.kShirt inp.kPants inp.kShoes).2
  else if action == "add" then
    let r := add_item s inp.addCategory inp.addName inp.addColor
      inp.addTemperature inp.addWeather inp.addStyle
    StepResult.cont r.1 ["Item added successfully."]
  else if action == "quit" then
    StepResult.quit s
  else
    StepResult.cont s ["Invalid action. Please choose again."]

/-- State-passing view of `ItemManager.choose_item`, recording the
effect (none) of the method on the manager state: the method only reads
`self.items`, builds the local `valid_items` list, and returns. -/
def choose_item_st (s : ManagerState) (category : String) (temperature : Int)
    (style : String) (k : Nat) : ManagerState × Option Item :=
  (s, choose_item s.items category temperature style k)

/-- State-passing view of the static method
`ItemManager.temperature_check`: it touches no instance state. -/
def temperature_check_st (s : ManagerState) (temperature : Int) :
    ManagerState × String :=
  (s, temperature_check temperature)

/-- The Parka jacket of the spec's two-item scenario catalog. -/
def parka : Item := Item.mk "jacket" "Parka" "Blue" "cold" "casual" "rainy"

/-- The Tee shirt of the spec's two-item scenario catalog. -/
def tee : Item := Item.mk "shirt" "Tee" "White" "hot" "casual" "sunny"

/-- The spec's two-item scenario catalog. -/
def demoCatalog : List Item := [parka, tee]

/-- The empty initial state (no persisted records, no items). -/
def emptyState : ManagerState := ManagerState.mk [] []

/-- A shirt stored with the capitalized style string `"Casual"`, as
`add_item` records it when the user types `Casual` at the style prompt. -/
def casualTee : Item := Item.mk "shirt" "Tee" "White" "hot" "Casual" "sunny"

/-- Prompt answers for a find query whose temperature answer `"abc"` is
not an integer. -/
def findInputsAbc : Inputs :=
  Inputs.mk "abc" "casual" "sunny" "" "" "" "" "" "" 0 0 0 0

/-- Prompt answers for a find query whose temperature answer `"20C"` is
not an integer. -/
def findInputsBadTemp : Inputs :=
  Inputs.mk "20C" "formal" "rainy" "" "" "" "" "" "" 1 2 3 4

/-- First character of a printed line (used to tell the report lines
apart: jacket lines start with `J`, no other line does). -/
def firstChar (s : String) : Option Char := s.data.head?

/-- Claim C2: `temperatureBand` is pure on integers, with hot for
`t ≥ 21`, medium for `15 ≤ t < 21`, cold for `t < 15`, and in
particular `21 ↦ hot`, `20 ↦ medium`, `15 ↦ medium`, `14 ↦ cold`. -/
theorem temperature_check_bands :
    (∀ t : Int, 21 ≤ t → temperature_check t = "hot") ∧
    (∀ t : Int, 15 ≤ t → t < 21 → temperature_check t = "medium") ∧
    (∀ t : Int, t < 15 → temperature_check t = "cold") ∧
    temperature_check 21 = "hot" ∧ temperature_check 20 = "medium" ∧
    temperature_check 15 = "medium" ∧ temperature_check 14 = "cold" := by
  refine ⟨?_, ?_, ?_, by decide, by decide, by decide, by decide⟩ <;>
    · intro t
      unfold temperature_check
      split_ifs <;> intros <;> first | rfl | (exfalso; omega)

/-- Witness for C2: the band theorem applied at 30, 16 and 0. -/
theorem temperature_check_bands_witness :
    temperature_check 30 = "hot" ∧ temperature_check 16 = "medium" ∧
    temperature_check 0 = "cold" :=
  ⟨temperature_check_bands.1 30 (by decide),
   temperature_check_bands.2.1 16 (by decide) (by decide),
   temperature_check_bands.2.2.1 0 (by decide)⟩

/-- Claim C10: `temperature_check` is total on `Int`: it always returns
one of `"hot"`, `"medium"`, `"cold"`, and the three outcomes hold
exactly on the three mutually exclusive, exhaustive ranges. -/
theorem temperature_check_trichotomy :
    ∀ t : Int,
      temperature_check t ∈ (["hot", "medium", "cold"] : List String) ∧
      (temperature_check t = "hot" ↔ 21 ≤ t) ∧
      (temperature_check t = "medium" ↔ 15 ≤ t ∧ t < 21) ∧
      (temperature_check t = "cold" ↔ t < 15) := by
  intro t
  unfold temperature_check
  split_ifs with h1 h2 <;>
    refine ⟨by simp [TEMPERATURE_HOT, TEMPERATURE_MEDIUM, TEMPERATURE_COLD], ?_, ?_, ?_⟩ <;>
    constructor <;>
    first
      | (intro h; rfl)
      | (intro h; exfalso; revert h; decide)
      | (intro h; omega)

/-- Claim C6: whenever the filtered list is empty, `choose_item`
returns `none` (the "none found" outcome) for every random draw; no
error is possible. -/
theorem choose_item_empty_none :
    ∀ (items : List Item) (category : String) (t : Int) (style : String) (k : Nat),
      valid_items items category t style = [] →
      choose_item items category t style k = none := by
  intro items category t style k h
  unfold choose_item
  rw [h]
  exact List.getElem?_nil

/-- Witness for C6: the demo catalog has no casual pants for
temperature 10, and `choose_item` returns `none` there. -/
theorem choose_item_empty_none_witness :
    valid_items demoCatalog "pants" 10 "casual" = [] ∧
    choose_item demoCatalog "pants" 10 "casual" 3 = none :=
  ⟨by decide, choose_item_empty_none demoCatalog "pants" 10 "casual" 3 (by decide)⟩

/-- Claim C7: on the two-item scenario catalog, the jacket query at
temperature 10 (cold) returns the Parka for every random draw (sole
match), and the jacket query at temperature 25 (hot) returns `none`. -/
theorem demo_scenario :
    (∀ k : Nat, choose_item demoCatalog "jacket" 10 "casual" k = some parka) ∧
    (∀ k : Nat, choose_item demoCatalog "jacket" 25 "casual" k = none) := by
  constructor
  · intro k
    have h : valid_items demoCatalog "jacket" 10 "casual" = [parka] := by decide
    unfold choose_item
    rw [h]
    simp [Nat.mod_one]
  · intro k
    have h : valid_items demoCatalog "jacket" 25 "casual" = [] := by decide
    unfold choose_item
    rw [h]
    exact List.getElem?_nil

/-- Membership in the `valid_items` filter is exactly the three-field
match against the query. -/
lemma mem_valid_items {items : List Item} {category : String} {t : Int}
    {style : String} {item : Item} :
    item ∈ valid_items items category t style ↔
      item ∈ items ∧ item.temperature = temperature_check t ∧
        item.style = style ∧ item.category = category := by
  unfold valid_items
  rw [List.mem_filter]
  simp [Bool.and_eq_true, beq_iff_eq, and_assoc]

/-- Any item `choose_item` returns is a member of the filtered list. -/
lemma choose_item_mem {items : List Item} {category : String} {t : Int}
    {style : String} {k : Nat} {item : Item}
    (h : choose_item items category t style k = some item) :
    item ∈ valid_items items category t style :=
  List.getElem?_mem h

/-- Claim C1: every item `choose_item` returns comes from the filtered
list, hence it matches the query's category, temperature band and
style exactly; and whenever the filtered list is non-empty,
`choose_item` returns one of its items (never the "none" outcome). -/
theorem choose_item_sound :
    (∀ (items : List Item) (category : String) (t : Int) (style : String)
        (k : Nat) (item : Item),
      choose_item items category t style k = some item →
        item ∈ valid_items items category t style ∧
        item.category = category ∧
        item.temperature = temperature_check t ∧
        item.style = style) ∧
    (∀ (items : List Item) (category : String) (t : Int) (style : String) (k : Nat),
      valid_items items category t style ≠ [] →
        ∃ item, choose_item items category t style k = some item ∧
          item ∈ valid_items items category t style) := by
  constructor
  · intro items category t style k item h
    have hmem : item ∈ valid_items items category t style :=
      choose_item_mem h
    have hp := mem_valid_items.mp hmem
    exact ⟨hmem, hp.2.2.2, hp.2.1, hp.2.2.1⟩
  · intro items category t style k hne
    have hlen : 0 < (valid_items items category t style).length :=
      List.length_pos.mpr hne
    have hlt : k % (valid_items items category t style).length <
        (valid_items items category t style).length :=
      Nat.mod_lt _ hlen
    refine ⟨(valid_items items category t style)[k % (valid_items items category t style).length], ?_, ?_⟩
    · exact List.getElem?_eq_getElem hlt
    · exact List.getElem_mem hlt

/-- Witness for C1: on the demo catalog, the jacket query at 10 returns
the Parka, which matches the query fields; and the non-empty filtered
list yields a returned item. -/
theorem choose_item_sound_witness :
    (parka ∈ valid_items demoCatalog "jacket" 10 "casual" ∧
      parka.category = "jacket" ∧
      parka.temperature = temperature_check 10 ∧
      parka.style = "casual") ∧
    (∃ item, choose_item demoCatalog "jacket" 10 "casual" 7 = some item ∧
      item ∈ valid_items demoCatalog "jacket" 10 "casual") :=
  ⟨choose_item_sound.1 demoCatalog "jacket" 10 "casual" 7 parka (by decide),
   choose_item_sound.2 demoCatalog "jacket" 10 "casual" 7 (by decide)⟩

/-- Claim C8: `choose_item` and `temperature_check` are read-only: the
manager state they return is the one they were given, so neither the
in-memory `items` list nor the persisted file changes. -/
theorem choose_item_read_only :
    ∀ (s : ManagerState) (category : String) (t : Int) (style : String) (k : Nat),
      (choose_item_st s category t style k).1 = s ∧
      (choose_item_st s category t style k).1.items = s.items ∧
      (choose_item_st s category t style k).1.file = s.file ∧
      (temperature_check_st s t).1 = s := by
  intro s category t style k
  exact ⟨rfl, rfl, rfl, rfl⟩

/-- Counterexample to C5 as stated: `add_item` appends to the
in-memory list first and writes the file record second, so its event
trace at a concrete input is memory-append then file-write, not
file-write then memory-append. -/
theorem add_item_order_counterexample :
    (add_item emptyState "shirt" "Tee" "White" "hot" "sunny" "casual").2
        = [Event.memAppend, Event.fileWrite] ∧
    (add_item emptyState "shirt" "Tee" "White" "hot" "sunny" "casual").2
        ≠ [Event.fileWrite, Event.memAppend] := by
  exact ⟨rfl, by decide⟩

/-- Claim C5 (amended): `add_item` adds the item to the in-memory
catalog and then writes exactly one new record to the persisted file;
the prior records are unchanged and keep their order, a fresh-process
`load_items` of the new file yields all prior items followed by the
appended item, and the appended record's occurrence count grows by
exactly one. -/
theorem add_item_append_then_load :
    ∀ (s : ManagerState) (category name color temperature weather style : String),
      (add_item s category name color temperature weather style).2
          = [Event.memAppend, Event.fileWrite] ∧
      (add_item s category name color temperature weather style).1.file
          = s.file ++ [Row.mk category name color temperature style weather] ∧
      (add_item s category name color temperature weather style).1.items
          = s.items ++ [Item.mk category name color temperature style weather] ∧
      load_items (add_item s category name color temperature weather style).1.file
          = load_items s.file ++ [Item.mk category name color temperature style weather] ∧
      ((add_item s category name color temperature weather style).1.file).count
            (Row.mk category name color temperature style weather)
          = s.file.count (Row.mk category name color temperature style weather) + 1 := by
  intro s category name color temperature weather style
  refine ⟨rfl, rfl, rfl, ?_, ?_⟩
  · unfold add_item load_items
    simp [rowToItem]
  · unfold add_item
    simp [List.count_append, List.count_singleton_self]

/-- The first character of a string that starts with a known literal
prefix is that literal's first character. -/
lemma firstChar_append (c : Char) (rest : List Char) (x : String) :
    firstChar (String.mk (c :: rest) ++ x) = some c := by
  cases x with
  | mk d => rfl

/-- Every jacket line starts with `J`. -/
lemma firstChar_jacketLine (j : Option Item) : firstChar (jacketLine j) = some 'J' := by
  cases j with
  | none => rfl
  | some i =>
    have h : ("Jacket: " : String) = String.mk ['J', 'a', 'c', 'k', 'e', 't', ':', ' '] := rfl
    show firstChar ("Jacket: " ++ itemStr i) = some 'J'
    rw [h, firstChar_append]

/-- Every shirt line starts with `S`. -/
lemma firstChar_shirtLine (j : Option Item) : firstChar (shirtLine j) = some 'S' := by
  cases j with
  | none => rfl
  | some i =>
    have h : ("Shirt: " : String) = String.mk ['S', 'h', 'i', 'r', 't', ':', ' '] := rfl
    show firstChar ("Shirt: " ++ itemStr i) = some 'S'
    rw [h, firstChar_append]

/-- Every pants line starts with `P`. -/
lemma firstChar_pantsLine (j : Option Item) : firstChar (pantsLine j) = some 'P' := by
  cases j with
  | none => rfl
  | some i =>
    have h : ("Pants: " : String) = String.mk ['P', 'a', 'n', 't', 's', ':', ' '] := rfl
    show firstChar ("Pants: " ++ itemStr i) = some 'P'
    rw [h, firstChar_append]

/-- Every shoes line starts with `S`. -/
lemma firstChar_shoesLine (j : Option Item) : firstChar (shoesLine j) = some 'S' := by
  cases j with
  | none => rfl
  | some i =>
    have h : ("Shoes: " : String) = String.mk ['S', 'h', 'o', 'e', 's', ':', ' '] := rfl
    show firstChar ("Shoes: " ++ itemStr i) = some 'S'
    rw [h, firstChar_append]

/-- A jacket line never occurs in the jacket-free report (its lines
start with `T`, `S`, `P`, `S`, never `J`). -/
lemma jacketLine_not_mem (j s p sh : Option Item) :
    jacketLine j ∉ ["Today\x27s Outfit:", shirtLine s, pantsLine p, shoesLine sh] := by
  intro hmem
  rcases List.mem_cons.mp hmem with h | hmem
  · have hc := congrArg firstChar h
    rw [firstChar_jacketLine] at hc
    exact absurd hc (by decide)
  rcases List.mem_cons.mp hmem with h | hmem
  · have hc := congrArg firstChar h
    rw [firstChar_jacketLine, firstChar_shirtLine] at hc
    exact absurd hc (by decide)
  rcases List.mem_cons.mp hmem with h | hmem
  · have hc := congrArg firstChar h
    rw [firstChar_jacketLine, firstChar_pantsLine] at hc
    exact absurd hc (by decide)
  rcases List.mem_cons.mp hmem with h | hmem
  · have hc := congrArg firstChar h
    rw [firstChar_jacketLine, firstChar_shoesLine] at hc
    exact absurd hc (by decide)
  · exact absurd hmem (List.not_mem_nil _)

/-- Counterexample to C4 as stated: with weather sunny and temperature
25 (hot band), the find branch still requests the jacket category from
`choose_item`; the jacket call is unconditional in the source. -/
theorem jacket_requested_counterexample :
    temperature_check 25 = "hot" ∧
    "jacket" ∈ (find_action demoCatalog 25 "casual" "sunny" 0 0 0 0).1 := by
  exact ⟨rfl, by decide⟩

/-- Claim C4 (amended): every find query requests the jacket category
from `choose_item`, regardless of weather and band; the jacket line is
reported exactly when weather is rainy or the band is cold (so for
sunny and 25 the jacket is requested but not reported, and for rainy
and 25 it is both requested and reported). -/
theorem jacket_requested_and_report_gated :
    ∀ (items : List Item) (t : Int) (style weather : String) (kJ kS kP kSh : Nat),
      "jacket" ∈ (find_action items t style weather kJ kS kP kSh).1 ∧
      (jacketLine (choose_item items CATEGORY_JACKET t style kJ)
          ∈ (find_action items t style weather kJ kS kP kSh).2 ↔
        (weather == "rainy" || temperature_check t == TEMPERATURE_COLD) = true) := by
  intro items t style weather kJ kS kP kSh
  constructor
  · show "jacket" ∈ [CATEGORY_JACKET, CATEGORY_SHIRT, CATEGORY_PANTS, CATEGORY_SHOES]
    decide
  · by_cases hg : (weather == "rainy" || temperature_check t == TEMPERATURE_COLD) = true
    · simp only [find_action, hg, if_true]
      simp [hg]
    · have hg' : (weather == "rainy" || temperature_check t == TEMPERATURE_COLD) = false :=
        Bool.eq_false_iff.mpr hg
      simp only [find_action, hg', Bool.false_eq_true, if_false]
      simp only [hg', Bool.false_eq_true, iff_false]
      exact jacketLine_not_mem _ _ _ _

/-- A character code already in the lowercase ASCII letter range is
fixed by `Char.toLower`. -/
lemma toLower_ofNat_fixed (n : Nat) (h97 : 97 ≤ n) (h122 : n ≤ 122) :
    (Char.ofNat n).toLower = Char.ofNat n := by
  interval_cases n <;> decide

/-- `Char.toLower` is idempotent. -/
lemma toLower_toLower (c : Char) : c.toLower.toLower = c.toLower := by
  by_cases h : 65 ≤ c.toNat ∧ c.toNat ≤ 90
  · have h1 : c.toLower = Char.ofNat (c.toNat + 32) := by
      show (if c.toNat ≥ 65 ∧ c.toNat ≤ 90 then Char.ofNat (c.toNat + 32) else c)
          = Char.ofNat (c.toNat + 32)
      rw [if_pos ⟨h.1, h.2⟩]
    rw [h1]
    exact toLower_ofNat_fixed (c.toNat + 32) (by omega) (by omega)
  · have h1 : c.toLower = c := by
      show (if c.toNat ≥ 65 ∧ c.toNat ≤ 90 then Char.ofNat (c.toNat + 32) else c) = c
      rw [if_neg fun hc => h ⟨hc.1, hc.2⟩]
    rw [h1, h1]

/-- `pyLower` is idempotent: lowercasing an already lowercased string
changes nothing. -/
lemma pyLower_idem (s : String) : pyLower (pyLower s) = pyLower s := by
  show String.mk ((s.data.map Char.toLower).map Char.toLower)
      = String.mk (s.data.map Char.toLower)
  rw [List.map_map]
  exact congrArg String.mk (List.map_congr_left fun c _ => toLower_toLower c)

/-- Claim C9: `add_item` stores the entered style string verbatim in
the new item, `choose_item` matches fields by exact case-sensitive
equality, and the find flow lowercases the entered style before
querying; hence an item whose stored style is not all-lowercase (it
changes under lowercasing, like `"Casual"`) is never returned by any
find query. -/
theorem nonlowercase_style_never_found :
    (∀ (s : ManagerState) (category name color temperature weather style : String),
      (add_item s category name color temperature weather style).1.items
          = s.items ++ [Item.mk category name color temperature style weather]) ∧
    (∀ (item : Item) (items : List Item) (category : String) (t : Int)
        (styleInput : String) (k : Nat),
      pyLower item.style ≠ item.style →
        choose_item items category t (pyLower styleInput) k ≠ some item) := by
  constructor
  · intro s category name color temperature weather style
    rfl
  · intro item items category t styleInput k hstyle hchoose
    have hmem := choose_item_mem hchoose
    have hp := mem_valid_items.mp hmem
    have heq : item.style = pyLower styleInput := hp.2.2.1
    apply hstyle
    rw [heq, pyLower_idem]

/-- Witness for C9: the stored style `"Casual"` is not all-lowercase,
and the find query with entered style `casual` never returns that item. -/
theorem nonlowercase_style_never_found_witness :
    pyLower casualTee.style ≠ casualTee.style ∧
    choose_item [casualTee] "shirt" 25 (pyLower "casual") 0 ≠ some casualTee :=
  ⟨by decide,
   nonlowercase_style_never_found.2 casualTee [casualTee] "shirt" 25 "casual" 0 (by decide)⟩

/-- Counterexample to C3 as stated: at the concrete non-integer
temperature answer `"abc"`, the find branch ends in the crash outcome
(an uncaught `ValueError` from `int(...)`), not in a continued loop
with an invalid-input report. -/
theorem nonint_temperature_crash_counterexample :
    pyInt "abc" = none ∧
    loop_step emptyState "find" findInputsAbc = StepResult.crash emptyState := by
  exact ⟨by decide, by decide⟩

/-- Claim C3 (amended): a non-integer temperature answer in the find
flow makes `int(...)` raise an uncaught `ValueError`, terminating the
program (the loop does not continue); only an unrecognized action
keyword is reported as invalid with the loop continuing. -/
theorem find_nonint_crashes :
    (∀ (s : ManagerState) (inp : Inputs),
      pyInt inp.temperatureInput = none →
        loop_step s "find" inp = StepResult.crash s) ∧
    (∀ (s : ManagerState) (actionInput : String) (inp : Inputs),
      pyLower actionInput ∉ (["find", "add", "quit"] : List String) →
        loop_step s actionInput inp
          = StepResult.cont s ["Invalid action. Please choose again."]) := by
  constructor
  · intro s inp h
    have hstep : loop_step s "find" inp =
        match pyInt inp.temperatureInput with
        | none => StepResult.crash s
        | some today_temperature =>
          StepResult.cont s
            (find_action s.items today_temperature (pyLower inp.styleInput)
              (pyLower inp.weatherInput) inp.kJacket inp.kShirt inp.kPants inp.kShoes).2 :=
      rfl
    rw [hstep, h]
  · intro s actionInput inp h
    simp only [List.mem_cons, List.not_mem_nil, or_false, not_or] at h
    obtain ⟨h1, h2, h3⟩ := h
    simp only [loop_step]
    rw [if_neg (by simp [h1]), if_neg (by simp [h2]), if_neg (by simp [h3])]

/-- Witness for C3 (amended): at the answer `"20C"` the find branch
crashes, and the unknown action `help` is reported as invalid with the
loop continuing. -/
theorem find_nonint_crashes_witness :
    (pyInt "20C" = none ∧
      loop_step emptyState "find" findInputsBadTemp = StepResult.crash emptyState) ∧
    (pyLower "help" ∉ (["find", "add", "quit"] : List String) ∧
      loop_step emptyState "help" findInputsBadTemp
        = StepResult.cont emptyState ["Invalid action. Please choose again."]) :=
  ⟨⟨by decide, find_nonint_crashes.1 emptyState findInputsBadTemp (by decide)⟩,
   ⟨by decide, find_nonint_crashes.2 emptyState "help" findInputsBadTemp (by decide)⟩⟩

end ClothesAssistant
